import Mathlib

/-!
Verification of the water-level dashboard's data-shaping core
(`src/lib/api.ts`, `src/hooks/useWaterBodies.ts`).

Modelling conventions of the shallow embedding:
* numeric measurement values are rationals (`ℚ`); the JavaScript literal
  `0.8` is the exact rational `0.8`;
* fields that the code guards against being `undefined` (the
  `currentMeasurement` record, the `gaugeZero` record, the state-flag
  strings, `longname`) are `Option`s; JavaScript truthiness of a string is
  `s ≠ ""`, of a number it is `v ≠ 0`;
* the asynchronous fetch is embedded by passing the transport outcome
  (transport failure, or an HTTP response with a status code and a parsed
  body) as an explicit argument; fallible functions return `Except`;
* the React hook's state is a record, and its load operation is a state
  transformer taking the fetch outcome as an argument.
-/

namespace WaterAI

/-- One current measurement of a time series (`currentMeasurement` in
`ApiWaterBody`): timestamp, numeric value and the two state-flag strings. -/
structure CurrentMeasurement where
  timestamp : String
  value : ℚ
  stateMnwMhw : Option String
  stateNswHsw : Option String
deriving DecidableEq

/-- The gauge-zero reference record of a time series. -/
structure GaugeZero where
  unit : String
  value : ℚ
deriving DecidableEq

/-- One time-series entry of a raw station. -/
structure Timeseries where
  shortname : String
  longname : String
  unit : String
  equidistance : Nat
  currentMeasurement : Option CurrentMeasurement
  gaugeZero : Option GaugeZero
deriving DecidableEq

/-- A raw station as received from the upstream API (`ApiWaterBody`). -/
structure ApiWaterBody where
  uuid : String
  number : String
  shortname : String
  longname : Option String
  km : ℚ
  agency : String
  longitude : ℚ
  latitude : ℚ
  timeseries : List Timeseries
deriving DecidableEq

/-- Derived trend classification. -/
inductive Trend where
  | rising
  | falling
  | stable
deriving DecidableEq

/-- Derived status classification. -/
inductive Status where
  | normal
  | high
  | low
deriving DecidableEq

/-- Geographic coordinates of a normalized station. -/
structure Coordinates where
  latitude : ℚ
  longitude : ℚ
deriving DecidableEq

/-- The normalized view-model record (`WaterBody`). -/
structure WaterBody where
  id : String
  name : String
  currentLevel : ℚ
  normalLevel : ℚ
  trend : Trend
  status : Status
  lastUpdated : String
  coordinates : Coordinates
deriving DecidableEq

/-- Trend derivation from the current measurement
(`api.ts` lines 61-66): the NSW/HSW state flag selects the trend,
anything other than the two known strings is `stable`. -/
def trendOf (currentMeasurement : CurrentMeasurement) : Trend :=
  if currentMeasurement.stateNswHsw = some "rising" then Trend.rising
  else if currentMeasurement.stateNswHsw = some "falling" then Trend.falling
  else Trend.stable

/-- Status derivation from the current measurement
(`api.ts` lines 69-80): either flag saying "above" gives `high`,
else either flag saying "below" gives `low`, else `normal`. -/
def statusOf (currentMeasurement : CurrentMeasurement) : Status :=
  if currentMeasurement.stateMnwMhw = some "above" ∨
      currentMeasurement.stateNswHsw = some "above" then Status.high
  else if currentMeasurement.stateMnwMhw = some "below" ∨
      currentMeasurement.stateNswHsw = some "below" then Status.low
  else Status.normal

/-- Baseline derivation (`api.ts` lines 82-84):
`timeseries.gaugeZero?.value || currentMeasurement.value * 0.8`.
A missing gauge-zero record, or a gauge-zero value of `0` (falsy in
JavaScript), falls back to 80 percent of the current value. -/
def normalLevelOf (timeseries : Timeseries)
    (currentMeasurement : CurrentMeasurement) : ℚ :=
  match timeseries.gaugeZero with
  | none => currentMeasurement.value * (0.8 : ℚ)
  | some gz =>
      if gz.value = 0 then currentMeasurement.value * (0.8 : ℚ)
      else gz.value

/-- Display-name derivation (`api.ts` line 88):
`station.longname || station.shortname`; a missing or empty long name
(both falsy) falls back to the short name. -/
def nameOf (station : ApiWaterBody) : String :=
  match station.longname with
  | none => station.shortname
  | some ln => if ln = "" then station.shortname else ln

/-- The record literal returned for a kept station
(`api.ts` lines 86-99). -/
def mkWaterBody (station : ApiWaterBody) (timeseries : Timeseries)
    (currentMeasurement : CurrentMeasurement) : WaterBody :=
  { id := station.uuid
    name := nameOf station
    currentLevel := currentMeasurement.value
    normalLevel := normalLevelOf timeseries currentMeasurement
    trend := trendOf currentMeasurement
    status := statusOf currentMeasurement
    lastUpdated := currentMeasurement.timestamp
    coordinates := { latitude := station.latitude
                     longitude := station.longitude } }

/-- Embedding of `transformApiData` (`api.ts` lines 50-101): keep stations with a
non-empty time-series list, map each to an optional normalized record
(`null` when the first entry has no current measurement), and drop the
`null`s (`.filter(Boolean)`). -/
def transformApiData (data : List ApiWaterBody) : List WaterBody :=
  ((data.filter (fun station => 0 < station.timeseries.length)).map
    (fun station =>
      match station.timeseries.head? with
      | none => none
      | some timeseries =>
          match timeseries.currentMeasurement with
          | none => none
          | some currentMeasurement =>
              some (mkWaterBody station timeseries currentMeasurement))
  ).reduceOption

/-- Character-list version of JavaScript `String.prototype.startsWith`
restricted to what the search needs: `pat` is an initial segment of `l`. -/
def strStartsWith : List Char → List Char → Bool
  | _, [] => true
  | [], _ :: _ => false
  | c :: cs, p :: ps => c = p && strStartsWith cs ps

/-- Test whether `pat` occurs contiguously somewhere in `l` (JavaScript
`String.prototype.includes` on character lists). -/
def listHasSub (pat : List Char) : List Char → Bool
  | [] => strStartsWith [] pat
  | c :: rest => strStartsWith (c :: rest) pat || listHasSub pat rest

/-- Test whether `pat` occurs as a substring of `s`. -/
def strContainsSub (s pat : String) : Bool :=
  listHasSub pat.toList s.toList

/-- Embedding of JavaScript `toLowerCase`: lower-case every character
(defined structurally over the character list so that concrete instances
evaluate). -/
def strToLower (s : String) : String :=
  String.mk (s.data.map Char.toLower)

/-- Embedding of `searchWaterBodies` (`api.ts` lines 123-133): an empty query (falsy)
returns the collection itself, otherwise keep the stations whose
lower-cased name contains the lower-cased query. -/
def searchWaterBodies (waterBodies : List WaterBody) (query : String) :
    List WaterBody :=
  if query = "" then waterBodies
  else
    let lowerCaseQuery := strToLower query
    waterBodies.filter (fun waterBody =>
      strContainsSub (strToLower waterBody.name) lowerCaseQuery)

/-- An HTTP response delivered to `fetchWaterBodies`: status code and the
parsed JSON body. -/
structure HttpResponse where
  status : Nat
  body : List ApiWaterBody

/-- Predicate `response.ok` of the Fetch API: status in the range 200-299. -/
def responseOk (r : HttpResponse) : Bool :=
  decide (200 ≤ r.status) && decide (r.status < 300)

/-- Outcome of the single network read performed by `fetchWaterBodies`:
either the transport failed, or a response arrived. -/
inductive FetchOutcome where
  | transportFailure (msg : String)
  | response (r : HttpResponse)

/-- Embedding of `fetchWaterBodies` (`api.ts` lines 104-120) with the network outcome
passed explicitly: a transport failure propagates as an error, a non-ok
status raises the status message, otherwise the parsed body is
normalized by `transformApiData`. -/
def fetchWaterBodies (outcome : FetchOutcome) :
    Except String (List WaterBody) :=
  match outcome with
  | FetchOutcome.transportFailure msg => Except.error msg
  | FetchOutcome.response r =>
      if !responseOk r then
        Except.error ("API request failed with status " ++ toString r.status)
      else
        Except.ok (transformApiData r.body)

/-- The state held by the `useWaterBodies` hook. -/
structure HookState where
  waterBodies : List WaterBody
  filteredWaterBodies : List WaterBody
  isLoading : Bool
  isRefreshing : Bool
  error : Option String
deriving DecidableEq

/-- The synchronous pre-suspension part of `loadWaterBodies`
(`useWaterBodies.ts` lines 15-16): raise the loading flag and clear the
error slot before the fetch is awaited. -/
def loadStart (s : HookState) : HookState :=
  { s with isLoading := true, error := none }

/-- The post-suspension part of `loadWaterBodies`
(`useWaterBodies.ts` lines 18-27): on success store the data and the
filtered view, on failure set the message; the `finally` clause lowers
the loading flag in both cases. -/
def loadFinish (searchQuery : String)
    (fetchResult : Except String (List WaterBody)) (s : HookState) :
    HookState :=
  match fetchResult with
  | Except.ok data =>
      { s with waterBodies := data
               filteredWaterBodies := searchWaterBodies data searchQuery
               isLoading := false }
  | Except.error _ =>
      { s with error := some "Failed to load water bodies. Please try again."
               isLoading := false }

/-- Embedding of `loadWaterBodies` (`useWaterBodies.ts` lines 14-28) as a state
transformer over the hook state, with the fetch outcome explicit. -/
def loadWaterBodies (searchQuery : String)
    (fetchResult : Except String (List WaterBody)) (s : HookState) :
    HookState :=
  loadFinish searchQuery fetchResult (loadStart s)

/-- Sample measurement used by concrete witnesses. -/
def sampleCM (mnw nsw : Option String) : CurrentMeasurement :=
  { timestamp := "2024-01-01T00:00:00Z"
    value := 10
    stateMnwMhw := mnw
    stateNswHsw := nsw }

/-- Sample time-series entry used by concrete witnesses. -/
def sampleTS (cm : Option CurrentMeasurement) (gz : Option GaugeZero) :
    Timeseries :=
  { shortname := "W"
    longname := "Wasserstand"
    unit := "cm"
    equidistance := 15
    currentMeasurement := cm
    gaugeZero := gz }

/-- Sample raw station used by concrete witnesses. -/
def sampleStation (ts : List Timeseries) : ApiWaterBody :=
  { uuid := "u-1"
    number := "48900237"
    shortname := "KONSTANZ"
    longname := some "KONSTANZ RHEIN"
    km := 0
    agency := "WSA"
    longitude := 9.17
    latitude := 47.66
    timeseries := ts }

/-- Claim C3: the derived trend is `rising` when the NSW/HSW state flag
equals "rising", `falling` when it equals "falling", and `stable` for
every other value, including an absent flag. -/
theorem trend_mapping (cm : CurrentMeasurement) :
    (cm.stateNswHsw = some "rising" → trendOf cm = Trend.rising) ∧
    (cm.stateNswHsw = some "falling" → trendOf cm = Trend.falling) ∧
    (cm.stateNswHsw ≠ some "rising" → cm.stateNswHsw ≠ some "falling" →
      trendOf cm = Trend.stable) := by
  refine ⟨fun h => ?_, fun h => ?_, fun h1 h2 => ?_⟩
  · simp [trendOf, h]
  · simp [trendOf, h]
  · simp [trendOf, h1, h2]

/-- Witness for C3 at three concrete measurements, one per trend. -/
theorem trend_mapping_witness :
    trendOf (sampleCM none (some "rising")) = Trend.rising ∧
    trendOf (sampleCM none (some "falling")) = Trend.falling ∧
    trendOf (sampleCM none none) = Trend.stable :=
  ⟨(trend_mapping (sampleCM none (some "rising"))).1 rfl,
   (trend_mapping (sampleCM none (some "falling"))).2.1 rfl,
   (trend_mapping (sampleCM none none)).2.2 (by decide) (by decide)⟩

/-- Claim C2: the derived status is `high` when either state flag equals
"above", otherwise `low` when either equals "below", otherwise `normal`;
in particular "above" on one flag wins over "below" on the other. -/
theorem status_above_precedence (cm : CurrentMeasurement) :
    ((cm.stateMnwMhw = some "above" ∨ cm.stateNswHsw = some "above") →
      statusOf cm = Status.high) ∧
    (¬(cm.stateMnwMhw = some "above" ∨ cm.stateNswHsw = some "above") →
      (cm.stateMnwMhw = some "below" ∨ cm.stateNswHsw = some "below") →
      statusOf cm = Status.low) ∧
    (¬(cm.stateMnwMhw = some "above" ∨ cm.stateNswHsw = some "above") →
      ¬(cm.stateMnwMhw = some "below" ∨ cm.stateNswHsw = some "below") →
      statusOf cm = Status.normal) := by
  unfold statusOf
  refine ⟨fun h => ?_, fun h1 h2 => ?_, fun h1 h2 => ?_⟩
  · rw [if_pos h]
  · rw [if_neg h1, if_pos h2]
  · rw [if_neg h1, if_neg h2]

/-- Witness for C2: both disagreeing flag combinations yield `high`, and
a lone "below" yields `low`. -/
theorem status_above_precedence_witness :
    statusOf (sampleCM (some "above") (some "below")) = Status.high ∧
    statusOf (sampleCM (some "below") (some "above")) = Status.high ∧
    statusOf (sampleCM (some "below") none) = Status.low :=
  ⟨(status_above_precedence (sampleCM (some "above") (some "below"))).1
     (Or.inl rfl),
   (status_above_precedence (sampleCM (some "below") (some "above"))).1
     (Or.inr rfl),
   (status_above_precedence (sampleCM (some "below") none)).2.1
     (by decide) (Or.inl rfl)⟩

/-- Claim C4: the emitted `normalLevel` is the first entry's gauge-zero
value when that value is present and non-zero, and otherwise is the
current value times 0.8. -/
theorem normalLevel_gaugeZero_or_fallback (station : ApiWaterBody)
    (ts : Timeseries) (cm : CurrentMeasurement) :
    (∀ gz, ts.gaugeZero = some gz → gz.value ≠ 0 →
      (mkWaterBody station ts cm).normalLevel = gz.value) ∧
    ((ts.gaugeZero = none ∨ ∃ gz, ts.gaugeZero = some gz ∧ gz.value = 0) →
      (mkWaterBody station ts cm).normalLevel = cm.value * (0.8 : ℚ)) := by
  constructor
  · intro gz hgz hne
    simp [mkWaterBody, normalLevelOf, hgz, hne]
  · rintro (h | ⟨gz, hgz, hz⟩) <;> simp [mkWaterBody, normalLevelOf, *]

/-- Witness for C4: with no gauge zero and current value 10 the baseline
is 8; with gauge zero 500 the baseline is 500. -/
theorem normalLevel_gaugeZero_or_fallback_witness :
    (mkWaterBody (sampleStation []) (sampleTS none none)
      (sampleCM none none)).normalLevel = 8 ∧
    (mkWaterBody (sampleStation []) (sampleTS none (some ⟨"cm", 500⟩))
      (sampleCM none none)).normalLevel = 500 := by
  have h1 := (normalLevel_gaugeZero_or_fallback (sampleStation [])
    (sampleTS none none) (sampleCM none none)).2 (Or.inl rfl)
  have h2 := (normalLevel_gaugeZero_or_fallback (sampleStation [])
    (sampleTS none (some ⟨"cm", 500⟩)) (sampleCM none none)).1
    ⟨"cm", 500⟩ rfl (by norm_num)
  constructor
  · rw [h1]; norm_num [sampleCM]
  · rw [h2]

/-- Claim C6: searching with the empty query returns the collection
itself, unchanged. -/
theorem search_empty_query_identity (C : List WaterBody) :
    searchWaterBodies C "" = C := by
  simp [searchWaterBodies]

/-- Claim C7: when the fetch fails, the load operation keeps the previous
collection and filtered view untouched, sets the human-readable error
message, and the error slot was cleared when the attempt started. -/
theorem load_failure_preserves_collection (q e : String) (s : HookState) :
    (loadWaterBodies q (Except.error e) s).waterBodies = s.waterBodies ∧
    (loadWaterBodies q (Except.error e) s).filteredWaterBodies =
      s.filteredWaterBodies ∧
    (loadWaterBodies q (Except.error e) s).error =
      some "Failed to load water bodies. Please try again." ∧
    (loadStart s).error = none :=
  ⟨rfl, rfl, rfl, rfl⟩

/-- Claim C10: the emitted name is the long name when it is present and
non-empty, and otherwise is the short name (the fallback also fires on
the empty string). -/
theorem name_longname_fallback (station : ApiWaterBody)
    (ts : Timeseries) (cm : CurrentMeasurement) :
    (∀ ln, station.longname = some ln → ln ≠ "" →
      (mkWaterBody station ts cm).name = ln) ∧
    ((station.longname = none ∨ station.longname = some "") →
      (mkWaterBody station ts cm).name = station.shortname) := by
  constructor
  · intro ln h hne
    simp [mkWaterBody, nameOf, h, hne]
  · rintro (h | h) <;> simp [mkWaterBody, nameOf, h]

/-- Witness for C10: a present non-empty long name is used; an empty long
name falls back to the short name. -/
theorem name_longname_fallback_witness :
    (mkWaterBody (sampleStation []) (sampleTS none none)
      (sampleCM none none)).name = "KONSTANZ RHEIN" ∧
    (mkWaterBody { sampleStation [] with longname := some "" }
      (sampleTS none none) (sampleCM none none)).name = "KONSTANZ" :=
  ⟨(name_longname_fallback (sampleStation []) (sampleTS none none)
      (sampleCM none none)).1 "KONSTANZ RHEIN" rfl (by decide),
   (name_longname_fallback { sampleStation [] with longname := some "" }
      (sampleTS none none) (sampleCM none none)).2 (Or.inr rfl)⟩

/-- Per-station view of the transformation: the optional normalized
record produced for one raw station (helper for proofs about
`transformApiData`). -/
def transformStation (station : ApiWaterBody) : Option WaterBody :=
  match station.timeseries.head? with
  | none => none
  | some ts =>
      match ts.currentMeasurement with
      | none => none
      | some cm => some (mkWaterBody station ts cm)

/-- The filter-map-compact pipeline of `transformApiData` collapses to a
single `filterMap` of the per-station view. -/
theorem transform_eq_filterMap (data : List ApiWaterBody) :
    transformApiData data = data.filterMap transformStation := by
  induction data with
  | nil => rfl
  | cons station rest ih =>
      unfold transformApiData at ih
      cases hts : station.timeseries with
      | nil =>
          simp [transformApiData, List.filter_cons, hts, List.filterMap_cons,
            transformStation, ih]
      | cons t ts =>
          cases hcm : t.currentMeasurement with
          | none =>
              simp [transformApiData, List.filter_cons, hts, hcm,
                List.filterMap_cons, transformStation, ih]
          | some cm =>
              simp [transformApiData, List.filter_cons, hts, hcm,
                List.filterMap_cons, transformStation, ih]

/-- Claim C1: a raw station is excluded from the output exactly when it
has no time-series entries or its first entry has no current
measurement; a kept station contributes exactly one record whose
`currentLevel` is the measured value. -/
theorem transform_excludes_iff (pre post : List ApiWaterBody)
    (station : ApiWaterBody) :
    ((station.timeseries = [] ∨
      (∃ ts, station.timeseries.head? = some ts ∧
        ts.currentMeasurement = none)) →
      transformApiData (pre ++ station :: post) =
        transformApiData pre ++ transformApiData post) ∧
    (∀ ts cm, station.timeseries.head? = some ts →
      ts.currentMeasurement = some cm →
      transformApiData (pre ++ station :: post) =
        transformApiData pre ++
          mkWaterBody station ts cm :: transformApiData post ∧
      (mkWaterBody station ts cm).currentLevel = cm.value) := by
  constructor
  · intro h
    have hnone : transformStation station = none := by
      rcases h with h | ⟨ts, hts, hcm⟩
      · simp [transformStation, h]
      · simp [transformStation, hts, hcm]
    rw [transform_eq_filterMap, transform_eq_filterMap,
      transform_eq_filterMap, List.filterMap_append, List.filterMap_cons,
      hnone]
  · intro ts cm hts hcm
    have hsome : transformStation station = some (mkWaterBody station ts cm) := by
      simp [transformStation, hts, hcm]
    refine ⟨?_, rfl⟩
    rw [transform_eq_filterMap, transform_eq_filterMap,
      transform_eq_filterMap, List.filterMap_append, List.filterMap_cons,
      hsome]

/-- Witness for C1: a station without measurement is dropped, a complete
station yields exactly its normalized record. -/
theorem transform_excludes_iff_witness :
    transformApiData [sampleStation [sampleTS none none]] = [] ∧
    transformApiData [sampleStation [sampleTS (some (sampleCM none none)) none]] =
      [mkWaterBody (sampleStation [sampleTS (some (sampleCM none none)) none])
        (sampleTS (some (sampleCM none none)) none) (sampleCM none none)] := by
  have h1 := (transform_excludes_iff [] [] (sampleStation [sampleTS none none])).1
    (Or.inr ⟨sampleTS none none, rfl, rfl⟩)
  have h2 := (transform_excludes_iff [] []
    (sampleStation [sampleTS (some (sampleCM none none)) none])).2
    (sampleTS (some (sampleCM none none)) none) (sampleCM none none) rfl rfl
  exact ⟨by simpa using h1, by simpa using h2.1⟩

/-- A raw station with only its first time-series entry retained. -/
def firstOnly (station : ApiWaterBody) : ApiWaterBody :=
  { station with timeseries := station.timeseries.take 1 }

/-- The per-station view only consults the first time-series entry. -/
theorem transformStation_firstOnly (s : ApiWaterBody) :
    transformStation (firstOnly s) = transformStation s := by
  cases s with
  | mk uuid number shortname longname km agency longitude latitude ts =>
      cases ts <;> rfl

/-- Claim C9: the transformation consults only the first time-series
entry of each station; two inputs that agree after truncating every
station's time-series list to its first entry transform identically. -/
theorem transform_consults_only_first (data1 data2 : List ApiWaterBody)
    (h : data1.map firstOnly = data2.map firstOnly) :
    transformApiData data1 = transformApiData data2 := by
  rw [transform_eq_filterMap, transform_eq_filterMap]
  induction data1 generalizing data2 with
  | nil =>
      cases data2 with
      | nil => rfl
      | cons b t => simp at h
  | cons a t ih =>
      cases data2 with
      | nil => simp at h
      | cons b t2 =>
          simp only [List.map_cons, List.cons.injEq] at h
          rw [List.filterMap_cons, List.filterMap_cons]
          have hab : transformStation a = transformStation b := by
            rw [← transformStation_firstOnly a,
              ← transformStation_firstOnly b, h.1]
          rw [hab, ih t2 h.2]

/-- Witness for C9: adding a second time-series entry to a station does
not change the output. -/
theorem transform_consults_only_first_witness :
    transformApiData
      [sampleStation [sampleTS (some (sampleCM none none)) none]] =
    transformApiData
      [sampleStation [sampleTS (some (sampleCM none none)) none,
        sampleTS none (some ⟨"cm", 77⟩)]] :=
  transform_consults_only_first _ _ (by rfl)

/-- Claim C8: the fetch fails exactly when the transport fails or the
response status is not a success status, and on a successful response it
returns the transformed body. -/
theorem fetch_failure_iff (outcome : FetchOutcome) :
    ((∃ e, fetchWaterBodies outcome = Except.error e) ↔
      (∃ msg, outcome = FetchOutcome.transportFailure msg) ∨
      (∃ r, outcome = FetchOutcome.response r ∧ responseOk r = false)) ∧
    (∀ r, outcome = FetchOutcome.response r → responseOk r = true →
      fetchWaterBodies outcome = Except.ok (transformApiData r.body)) := by
  constructor
  · cases outcome with
    | transportFailure msg => simp [fetchWaterBodies]
    | response r =>
        cases h : responseOk r <;> simp [fetchWaterBodies, h]
  · rintro r rfl hok
    simp [fetchWaterBodies, hok]

/-- Sample HTTP response used by the C8 witness. -/
def sampleResponse : HttpResponse :=
  { status := 200
    body := [sampleStation [sampleTS (some (sampleCM none none)) none]] }

/-- Witness for C8: a status-200 response yields the transformed body. -/
theorem fetch_failure_iff_witness :
    fetchWaterBodies (FetchOutcome.response sampleResponse) =
      Except.ok (transformApiData sampleResponse.body) :=
  (fetch_failure_iff (FetchOutcome.response sampleResponse)).2
    sampleResponse rfl (by decide)

/-- Concrete normalized station used by the C5 witness. -/
def demoRhine : WaterBody :=
  { id := "r-1"
    name := "Rhine at Konstanz"
    currentLevel := 330
    normalLevel := 280
    trend := Trend.stable
    status := Status.normal
    lastUpdated := "2024-01-01T00:00:00Z"
    coordinates := { latitude := 47, longitude := 9 } }

/-- Second concrete normalized station used by the C5 witness. -/
def demoDanube : WaterBody :=
  { id := "d-1"
    name := "Danube at Ulm"
    currentLevel := 210
    normalLevel := 200
    trend := Trend.rising
    status := Status.high
    lastUpdated := "2024-01-01T00:00:00Z"
    coordinates := { latitude := 48, longitude := 10 } }

/-- Concrete collection used by the C5 witness. -/
def demoCollection : List WaterBody := [demoRhine, demoDanube]

/-- Claim C5: for a non-empty query the search result is a subsequence of
the input, and an element is returned exactly when it is in the input
and its name contains the query case-insensitively. -/
theorem search_filter_characterization (C : List WaterBody) (q : String)
    (hq : q ≠ "") :
    List.Sublist (searchWaterBodies C q) C ∧
    (∀ wb, wb ∈ searchWaterBodies C q ↔
      wb ∈ C ∧ strContainsSub (strToLower wb.name) (strToLower q) = true) := by
  have hdef : searchWaterBodies C q =
      C.filter (fun wb => strContainsSub (strToLower wb.name) (strToLower q)) := by
    simp [searchWaterBodies, hq]
  rw [hdef]
  refine ⟨List.filter_sublist C, fun wb => ?_⟩
  simp [List.mem_filter]

/-- Witness for C5: a mixed-case query keeps exactly the matching station
and the result is a subsequence of the collection. -/
theorem search_filter_characterization_witness :
    List.Sublist (searchWaterBodies demoCollection "RHI") demoCollection ∧
    searchWaterBodies demoCollection "RHI" = [demoRhine] := by
  have h := search_filter_characterization demoCollection "RHI" (by decide)
  exact ⟨h.1, by rfl⟩

end WaterAI
